import Mathlib

/-!
Shallow embedding of the freya media-asset service (src/media_helpers.py,
src/utils.py, src/routes_media.py) and proofs of the specification claims.

External collaborators (the Cosmos document store `database.cosmos_db`, the
blob store `storage.blob_storage`, the `json` module and the PIL image
pipeline) are not part of src/; they are modelled as oracle parameters, with
the store contract taken from the spec where its behaviour decides a claim.
Python exceptions are modelled with `Except`; each route returns its HTTP
outcome together with a trace of the externally visible effects it attempted,
in program order.
-/

namespace Freya

/-- Opaque binary contents of a blob or stream. -/
abbrev Bytes := String

/-- Does the list start with the given pattern? Embeds the prefix test used
by the Python string operations below. -/
def listStartsWith : List Char → List Char → Bool
  | _, [] => true
  | [], _ :: _ => false
  | c :: cs, p :: ps => c == p && listStartsWith cs ps

/-- Left-to-right, non-overlapping replacement of every occurrence of `pat`
by `rep`, driven by a fuel counter so that it is structurally recursive; the
fuel is instantiated with the length of the string, which suffices because
every step consumes at least one character. -/
def listReplaceF (pat rep : List Char) : Nat → List Char → List Char
  | 0, s => s
  | fuel + 1, s =>
    match s with
    | [] => []
    | c :: cs =>
      if listStartsWith s pat then rep ++ listReplaceF pat rep fuel (s.drop pat.length)
      else c :: listReplaceF pat rep fuel cs

/-- Python `s.replace("", rep)`: with an empty pattern the replacement is
inserted at every character boundary, before each character and once after
the last (so `"a".replace("", "X")` is `"XaX"` and `"".replace("", "X")` is
`"X"`). -/
def listInsertEverywhere (rep : List Char) : List Char → List Char
  | [] => rep
  | c :: cs => rep ++ c :: listInsertEverywhere rep cs

/-- Python `s.replace(pat, rep)`: for a non-empty pattern every occurrence is
replaced left to right without overlap, and a pattern that does not occur
leaves the string unchanged; for an empty pattern the replacement is inserted
at every character boundary. -/
def strReplace (s pat rep : String) : String :=
  if pat.data.isEmpty then ⟨listInsertEverywhere rep.data s.data⟩
  else ⟨listReplaceF pat.data rep.data s.data.length s.data⟩

/-- Does `pat` occur in the list? -/
def listContainsPat (pat : List Char) : List Char → Bool
  | [] => pat.isEmpty
  | c :: cs => listStartsWith (c :: cs) pat || listContainsPat pat cs

/-- Does `pat` occur as a substring of `s`? -/
def strContains (s pat : String) : Bool :=
  listContainsPat pat.data s.data

/-- Python `s.split("/")[-1]`: everything after the last slash. -/
def lastSegAux : List Char → List Char → List Char
  | [], acc => acc.reverse
  | c :: cs, acc => if c == '/' then lastSegAux cs [] else lastSegAux cs (c :: acc)

/-- Python `s.split("/")[-1]`: the last path segment of the string. -/
def lastPathSegment (s : String) : String :=
  ⟨lastSegAux s.data []⟩

/-- Python `s.lower()`, characterwise. -/
def toLowerStr (s : String) : String :=
  ⟨s.data.map Char.toLower⟩

/-- Did the external call succeed? -/
def succeeded {ε α : Type} : Except ε α → Bool
  | .ok _ => true
  | .error _ => false

/-- Did the operation fail? -/
def failed {ε α : Type} : Except ε α → Bool
  | .ok _ => false
  | .error _ => true

/-- An HTTPException with its status code and detail message. -/
structure HTTPError where
  status_code : Nat
  detail : String
deriving Repr, DecidableEq

/-- A Python exception inside `upload_new_asset`: an HTTPException (re-raised
by the outer handler), a ValueError, or any other exception (both mapped to a
500 by the outer `except Exception` handler). -/
inductive PyExc where
  | http (e : HTTPError)
  | valueError (msg : String)
  | other (msg : String)
deriving Repr, DecidableEq

/-- A decoded JSON value, as returned by the external `json.loads`
collaborator. Only the distinction the source inspects is modelled:
`isinstance(value, list)`, with the decoded elements or scalar kept opaque. -/
inductive JSON where
  | arr (elems : List String)
  | nonArray (value : String)
deriving Repr, DecidableEq

/-- The asset metadata record, with the fields `upload_new_asset` constructs
(routes_media.py lines 121-135). Timestamps are abstracted as naturals. -/
structure AssetRecord where
  id : String
  userId : String
  fileName : String
  originalFileName : Option String
  mediaType : String
  fileSize : Nat
  mimeType : String
  blobUrl : String
  thumbnailUrl : Option String
  description : Option String
  tags : Option (List String)
  uploadedAt : Nat
  updatedAt : Nat
deriving Repr, DecidableEq

/-- The constant payload `notify_logic_app` posts (routes_media.py 37-41). -/
structure NotifyPayload where
  type : String
  value : String
  filename : String
deriving Repr, DecidableEq

/-- Externally visible effects a route attempts, in program order. -/
inductive Effect where
  | primaryWrite (owner filename contentType : String)
  | previewWrite (owner filename : String)
  | metaCreate (record : AssetRecord)
  | primaryDelete (key : String)
  | previewDelete (key : String)
  | metaDelete (id owner : String)
  | metaUpdate (id owner : String)
  | notify (payload : NotifyPayload)
deriving Repr, DecidableEq

/-- Modelled from the spec: the Metadata Store collaborator
`getAsset(id, owner) -> record|absent` (`database.cosmos_db.get_media_by_id`,
whose code is not under src/). Per section 4.2 of the spec the strict
Ownership Guard fetch obtains the record and only then compares its stored
owner identifier with the caller, so the fetch itself is keyed by the asset
identifier alone. -/
def getAsset (store : List AssetRecord) (asset_identifier : String)
    (_account_identifier : String) : Option AssetRecord :=
  store.find? (fun r => r.id == asset_identifier)

/-- media_helpers.retrieve_and_confirm_asset_ownership: strict ownership
guard. 404 when the record is absent, 403 when its userId differs from the
caller, otherwise the record. -/
def retrieve_and_confirm_asset_ownership
    (get_media_by_id : String → String → Option AssetRecord)
    (asset_identifier account_identifier : String) : Except HTTPError AssetRecord :=
  match get_media_by_id asset_identifier account_identifier with
  | none => .error ⟨404, "Asset resource could not be located"⟩
  | some asset_document =>
    if asset_document.userId ≠ account_identifier then
      .error ⟨403, "Authorization failed: insufficient rights to access this asset"⟩
    else
      .ok asset_document

/-- media_helpers.parse_preview_storage_identifier. A falsy `thumbnailUrl`
(absent or empty) yields none; an absent `originalFileName` raises inside the
try block and the except branch yields none; otherwise the last `/`-segment
of the original filename is replaced in the primary storage key by the same
segment prefixed with `thumb_` (Python str.replace: every occurrence, the key
returned unchanged when the segment does not occur, and — for the empty
segment an original filename that is empty or ends in a slash produces — the
replacement inserted at every character boundary). -/
def parse_preview_storage_identifier (asset_document : AssetRecord) : Option String :=
  if asset_document.thumbnailUrl = none ∨ asset_document.thumbnailUrl = some "" then
    none
  else
    match asset_document.originalFileName with
    | none => none
    | some orig =>
      let source_filename := lastPathSegment orig
      some (strReplace asset_document.fileName source_filename
        ("thumb_" ++ source_filename))

/-- utils.determine_file_category (= validate_file_type): classify the
declared content type against the configured allow-lists, case-insensitively;
400 when neither list matches. -/
def determine_file_category (allowed_image_types allowed_video_types : List String)
    (content_type : String) : Except HTTPError String :=
  let mime_type := toLowerStr content_type
  if mime_type ∈ allowed_image_types then .ok "image"
  else if mime_type ∈ allowed_video_types then .ok "video"
  else .error ⟨400, "Content type is not permitted"⟩

/-- utils.verify_file_constraints (= validate_file_size): measure the stream
(the seek-to-end measurement is abstracted as the given size) and fail with
413 when it exceeds the limit. -/
def verify_file_constraints (size_limit : Nat) (measured_size : Nat) :
    Except HTTPError Nat :=
  if measured_size > size_limit then
    .error ⟨413, "File size surpasses maximum limit"⟩
  else
    .ok measured_size

/-- utils.create_preview_image (= generate_thumbnail): the PIL
decode/composite/resize/encode pipeline is the external Preview Deriver
collaborator, so its outcome is the `pipeline` argument; the function returns
the produced bytes, and any failure is caught by the except branch and
returns none. -/
def create_preview_image (pipeline : Except String Bytes) : Option Bytes :=
  match pipeline with
  | .ok preview => some preview
  | .error _ => none

/-- The fixed payload of routes_media.notify_logic_app: empty type, value and
filename fields, built from no request data. -/
def notify_payload : NotifyPayload := ⟨"", "", ""⟩

/-- routes_media.notify_logic_app: skip when no Logic App URL is configured;
otherwise post the constant payload; any failure of the post is caught and
logged. The returned value records what was sent, so independence from the
post outcome is expressible. -/
def notify_logic_app (logic_app_url : Option String)
    (post : NotifyPayload → Except String Unit) : Option NotifyPayload :=
  match logic_app_url with
  | none => none
  | some _url =>
    match post notify_payload with
    | .ok _ => some notify_payload
    | .error _ => some notify_payload

/-- The multipart upload request of upload_new_asset: the file stream with its
declared filename and content type, the optional description and tags form
fields, and the measured stream size. -/
structure UploadRequest where
  filename : String
  content_type : String
  description : Option String
  tags : Option String
  size : Nat
deriving Repr, DecidableEq

/-- The configuration and external-collaborator outcomes upload_new_asset
interacts with: the allow-lists and size limit from config.settings, the
external `json.loads`, the blob-store uploads (storage key and URL on
success), the PIL preview pipeline, and the generated identifier and
timestamp. -/
structure UploadEnv where
  allowed_image_types : List String
  allowed_video_types : List String
  max_file_size_bytes : Nat
  json_loads : String → Option JSON
  upload_primary : Except String (String × String)
  preview_pipeline : Except String Bytes
  upload_preview : Except String (String × String)
  new_uuid : String
  now : Nat

/-- The label-processing block of upload_new_asset (lines 76-86): a falsy tags
field is skipped; a JSON decode failure raises HTTPException 400; a decoded
non-array raises ValueError, which the inner `except json.JSONDecodeError`
clause does not catch. -/
def process_labels (json_loads : String → Option JSON) (label_data : Option String) :
    Except PyExc (Option (List String)) :=
  match label_data with
  | none => .ok none
  | some s =>
    if s = "" then .ok none
    else
      match json_loads s with
      | none => .error (.http ⟨400, "Label data format invalid. Expected JSON array."⟩)
      | some (.arr elems) => .ok (some elems)
      | some (.nonArray _) => .error (.valueError "Labels must be provided as an array")

/-- The asset metadata record constructed by upload_new_asset
(routes_media.py lines 118-135) from the validated inputs and the storage
outcomes. -/
def build_asset_record (env : UploadEnv) (file : UploadRequest)
    (account_identifier storage_blob_id storage_url asset_type : String)
    (byte_size : Nat) (preview_image_url : Option String)
    (label_list : Option (List String)) : AssetRecord :=
  { id := env.new_uuid
    userId := account_identifier
    fileName := storage_blob_id
    originalFileName := some file.filename
    mediaType := asset_type
    fileSize := byte_size
    mimeType := file.content_type
    blobUrl := storage_url
    thumbnailUrl := preview_image_url
    description := file.description
    tags := label_list
    uploadedAt := env.now
    updatedAt := env.now }

/-- The body of the outer try block of routes_media.upload_new_asset, with the
trace of effects attempted before the result was produced. -/
def upload_new_asset_inner (env : UploadEnv) (file : UploadRequest)
    (account_identifier : String) : Except PyExc AssetRecord × List Effect :=
  match determine_file_category env.allowed_image_types env.allowed_video_types
      file.content_type with
  | .error e => (.error (.http e), [])
  | .ok asset_type =>
    match verify_file_constraints env.max_file_size_bytes file.size with
    | .error e => (.error (.http e), [])
    | .ok byte_size =>
      match process_labels env.json_loads file.tags with
      | .error e => (.error e, [])
      | .ok label_list =>
        match env.upload_primary with
        | .error msg =>
          (.error (.other msg),
           [.primaryWrite account_identifier file.filename file.content_type])
        | .ok (storage_blob_id, storage_url) =>
          let primary_effect : Effect :=
            .primaryWrite account_identifier file.filename file.content_type
          let preview_step : Option String × List Effect :=
            if asset_type = "image" then
              match create_preview_image env.preview_pipeline with
              | none => (none, [])
              | some _preview_binary =>
                match env.upload_preview with
                | .ok (_preview_blob_id, preview_url) =>
                  (some preview_url,
                   [.previewWrite account_identifier ("thumb_" ++ file.filename)])
                | .error _msg =>
                  (none,
                   [.previewWrite account_identifier ("thumb_" ++ file.filename)])
            else (none, [])
          let asset_record : AssetRecord :=
            build_asset_record env file account_identifier storage_blob_id
              storage_url asset_type byte_size preview_step.1 label_list
          (.ok asset_record,
           primary_effect :: preview_step.2 ++
             [.metaCreate asset_record, .notify notify_payload])

/-- routes_media.upload_new_asset: the inner body wrapped in the outer
handlers, which re-raise HTTPExceptions and turn any other exception into a
500 whose detail carries the exception message. -/
def upload_new_asset (env : UploadEnv) (file : UploadRequest)
    (account_identifier : String) : Except HTTPError AssetRecord × List Effect :=
  match upload_new_asset_inner env file account_identifier with
  | (.ok record, effects) => (.ok record, effects)
  | (.error (.http e), effects) => (.error e, effects)
  | (.error (.valueError msg), effects) =>
    (.error ⟨500, "Upload operation failed: " ++ msg⟩, effects)
  | (.error (.other msg), effects) =>
    (.error ⟨500, "Upload operation failed: " ++ msg⟩, effects)

/-- The paginated list response of the list and search routes. -/
structure MediaListResponse where
  items : List AssetRecord
  total : Nat
  page : Nat
  pageSize : Nat
deriving Repr, DecidableEq

/-- routes_media.find_assets: owner-scoped search through the external
`cosmos_db.search_media`, then the background notification. -/
def find_assets
    (search_media : String → String → Nat → Nat → List AssetRecord × Nat)
    (query : String) (page pageSize : Nat) (account_identifier : String) :
    Except HTTPError MediaListResponse × List Effect :=
  let result := search_media account_identifier query page pageSize
  (.ok ⟨result.1, result.2, page, pageSize⟩, [.notify notify_payload])

/-- routes_media.retrieve_asset_collection: owner-scoped paginated listing
through the external `cosmos_db.get_user_media`, then the background
notification. -/
def retrieve_asset_collection
    (get_user_media : String → Nat → Nat → Option String → List AssetRecord × Nat)
    (page pageSize : Nat) (mediaType : Option String) (account_identifier : String) :
    Except HTTPError MediaListResponse × List Effect :=
  let result := get_user_media account_identifier page pageSize mediaType
  (.ok ⟨result.1, result.2, page, pageSize⟩, [.notify notify_payload])

/-- routes_media.retrieve_single_asset: strict ownership guard, then the
background notification and the record. -/
def retrieve_single_asset (store : List AssetRecord)
    (media_id account_identifier : String) :
    Except HTTPError AssetRecord × List Effect :=
  match retrieve_and_confirm_asset_ownership (getAsset store) media_id
      account_identifier with
  | .error e => (.error e, [])
  | .ok asset_record => (.ok asset_record, [.notify notify_payload])

/-- models.MediaUpdate as the route observes it: Pydantic Optional fields
defaulting to None, so an omitted field and one supplied as JSON null both
arrive as none (models.py is not under src/; this follows the spec's partial
update model combined with the `is not None` checks in the route). -/
structure MediaUpdate where
  description : Option String
  tags : Option (List String)
deriving Repr, DecidableEq

/-- A field of the raw update request body before deserialization: absent,
explicit JSON null, or a value. -/
inductive Field (α : Type) where
  | absent
  | null
  | given (a : α)
deriving Repr, DecidableEq

/-- Pydantic deserialization of one optional field: both an absent field and
an explicit null become None. -/
def Field.toOption : Field α → Option α
  | .absent => none
  | .null => none
  | .given a => some a

/-- The raw update request body. -/
structure MediaUpdatePayload where
  description : Field String
  tags : Field (List String)
deriving Repr, DecidableEq

/-- Deserializing the raw body into models.MediaUpdate. -/
def MediaUpdate.fromPayload (p : MediaUpdatePayload) : MediaUpdate :=
  ⟨p.description.toOption, p.tags.toOption⟩

/-- The field_updates mapping assembled by modify_asset_metadata: updatedAt is
always present; description and tags only when supplied non-None. -/
structure FieldUpdates where
  updatedAt : Nat
  description : Option String
  tags : Option (List String)
deriving Repr, DecidableEq

/-- Modelled from the spec: the Metadata Store collaborator
`updateAsset(id, owner, partialFields) -> record`
(`database.cosmos_db.update_media`, whose code is not under src/): applies
exactly the supplied fields to the stored record and leaves every other field
unchanged. -/
def updateAsset (record : AssetRecord) (updates : FieldUpdates) : AssetRecord :=
  { record with
    updatedAt := updates.updatedAt
    description :=
      match updates.description with
      | some d => some d
      | none => record.description
    tags :=
      match updates.tags with
      | some t => some t
      | none => record.tags }

/-- routes_media.modify_asset_metadata: strict ownership guard, assemble the
field updates (timestamp always, description and tags only when not None),
persist through the store, then the background notification. -/
def modify_asset_metadata (store : List AssetRecord) (media_id : String)
    (modification_data : MediaUpdate) (account_identifier : String) (now : Nat) :
    Except HTTPError AssetRecord × List Effect :=
  match retrieve_and_confirm_asset_ownership (getAsset store) media_id
      account_identifier with
  | .error e => (.error e, [])
  | .ok asset_record =>
    let field_updates : FieldUpdates :=
      { updatedAt := now
        description := modification_data.description
        tags := modification_data.tags }
    let modified_asset := updateAsset asset_record field_updates
    (.ok modified_asset,
     [.metaUpdate media_id account_identifier, .notify notify_payload])

/-- routes_media.modify_asset_metadata on the raw request body. -/
def modify_asset_metadata_from_payload (store : List AssetRecord)
    (media_id : String) (body : MediaUpdatePayload) (account_identifier : String)
    (now : Nat) : Except HTTPError AssetRecord × List Effect :=
  modify_asset_metadata store media_id (MediaUpdate.fromPayload body)
    account_identifier now

/-- The blob-store outcomes remove_asset interacts with. -/
structure DeleteEnv where
  delete_primary : Except String Unit
  delete_preview : Except String Unit

/-- routes_media.remove_asset: strict ownership guard; delete the primary blob
(an exception here escapes to the outer handler as a 500 and nothing further
runs); derive the preview identifier and, when present, attempt its deletion
with any failure caught and logged; delete the metadata record; notify. -/
def remove_asset (store : List AssetRecord) (env : DeleteEnv)
    (media_id account_identifier : String) : Except HTTPError Unit × List Effect :=
  match retrieve_and_confirm_asset_ownership (getAsset store) media_id
      account_identifier with
  | .error e => (.error e, [])
  | .ok asset_record =>
    match env.delete_primary with
    | .error _msg =>
      (.error ⟨500, "Failed to delete asset"⟩,
       [.primaryDelete asset_record.fileName])
    | .ok _ =>
      match parse_preview_storage_identifier asset_record with
      | none =>
        (.ok (),
         [.primaryDelete asset_record.fileName,
          .metaDelete media_id account_identifier, .notify notify_payload])
      | some preview_blob_identifier =>
        (.ok (),
         [.primaryDelete asset_record.fileName,
          .previewDelete preview_blob_identifier,
          .metaDelete media_id account_identifier, .notify notify_payload])

/-- The notification payloads occurring in an effect trace. -/
def notifyPayloads : List Effect → List NotifyPayload
  | [] => []
  | .notify p :: rest => p :: notifyPayloads rest
  | _ :: rest => notifyPayloads rest

/-- Whether an effect is a blob-store write. -/
def Effect.isStorageWrite : Effect → Bool
  | .primaryWrite _ _ _ => true
  | .previewWrite _ _ => true
  | _ => false

/-- Whether an effect is a metadata-record creation. -/
def Effect.isMetaCreate : Effect → Bool
  | .metaCreate _ => true
  | _ => false

/-- Whether an effect is a metadata-record deletion. -/
def Effect.isMetaDelete : Effect → Bool
  | .metaDelete _ _ => true
  | _ => false

/-- A concrete stored asset record owned by alice, used as a test vector. -/
def sampleRecord : AssetRecord :=
  { id := "m1"
    userId := "alice"
    fileName := "users/alice/cat.png"
    originalFileName := some "cat.png"
    mediaType := "image"
    fileSize := 200
    mimeType := "image/png"
    blobUrl := "http://blob/cat.png"
    thumbnailUrl := some "http://blob/thumb_cat.png"
    description := some "a cat"
    tags := some ["pet"]
    uploadedAt := 10
    updatedAt := 10 }

/-- A one-record metadata store holding `sampleRecord`. -/
def sampleStore : List AssetRecord := [sampleRecord]

/-- Blob-store outcomes where both deletions succeed. -/
def sampleDeleteEnv : DeleteEnv := ⟨.ok (), .ok ()⟩

/-- Blob-store outcomes where the primary deletion fails. -/
def sampleDeleteEnvPrimaryFail : DeleteEnv := ⟨.error "primary delete failed", .ok ()⟩

/-- Blob-store outcomes where only the preview deletion fails (for instance
because the preview blob was already removed out of band). -/
def sampleDeleteEnvPreviewFail : DeleteEnv := ⟨.ok (), .error "preview blob absent"⟩

/-- A concrete `json.loads` oracle: `[]` decodes to an empty array, `5` to a
JSON number (valid JSON that is not an array), anything else fails to
decode. -/
def sampleJsonLoads : String → Option JSON := fun s =>
  if s = "[]" then some (.arr [])
  else if s = "5" then some (.nonArray "5")
  else none

/-- A concrete upload environment in which every collaborator succeeds. -/
def sampleUploadEnv : UploadEnv :=
  { allowed_image_types := ["image/png", "image/jpeg"]
    allowed_video_types := ["video/mp4"]
    max_file_size_bytes := 500
    json_loads := sampleJsonLoads
    upload_primary := .ok ("users/alice/cat.png", "http://blob/cat.png")
    preview_pipeline := .ok "previewbytes"
    upload_preview := .ok ("users/alice/thumb_cat.png", "http://blob/thumb_cat.png")
    new_uuid := "uuid-1"
    now := 100 }

/-- The upload environment with a failing PIL preview pipeline. -/
def sampleUploadEnvPreviewFail : UploadEnv :=
  { sampleUploadEnv with preview_pipeline := .error "cannot identify image file" }

/-- The upload environment with a failing primary blob write. -/
def sampleUploadEnvPrimaryFail : UploadEnv :=
  { sampleUploadEnv with upload_primary := .error "storage unavailable" }

/-- A concrete upload request for an image with an empty tag array. -/
def sampleUploadReq : UploadRequest :=
  { filename := "cat.png"
    content_type := "image/PNG"
    description := some "a cat"
    tags := some "[]"
    size := 200 }

/-- The record `upload_new_asset` produces from `sampleUploadEnv` and
`sampleUploadReq` for alice. -/
def sampleCreatedRecord : AssetRecord :=
  { id := "uuid-1"
    userId := "alice"
    fileName := "users/alice/cat.png"
    originalFileName := some "cat.png"
    mediaType := "image"
    fileSize := 200
    mimeType := "image/PNG"
    blobUrl := "http://blob/cat.png"
    thumbnailUrl := some "http://blob/thumb_cat.png"
    description := some "a cat"
    tags := some []
    uploadedAt := 100
    updatedAt := 100 }

/-- A stored record whose primary storage key does not contain the last path
segment of its original filename, so the delete-time substitution pattern is
not found. -/
def c6Record : AssetRecord :=
  { sampleRecord with fileName := "uploads/dog.jpg" }

/-- C1: Through the strict ownership check, when an asset with the given
identifier exists but its stored owner identifier differs from the caller's
account identifier, the single read, the update and the delete each fail with
Forbidden (403); the same requests made with the owning account's identifier
succeed. -/
theorem strict_ownership_forbidden_for_non_owner_and_owner_succeeds
    (store : List AssetRecord) (denv : DeleteEnv) (asset_id owner caller : String)
    (r : AssetRecord) (md : MediaUpdate) (now : Nat)
    (hget : getAsset store asset_id caller = some r)
    (howner : r.userId = owner) (hne : caller ≠ owner)
    (hdel : denv.delete_primary = .ok ()) :
    (retrieve_single_asset store asset_id caller).1 =
      .error ⟨403, "Authorization failed: insufficient rights to access this asset"⟩ ∧
    (modify_asset_metadata store asset_id md caller now).1 =
      .error ⟨403, "Authorization failed: insufficient rights to access this asset"⟩ ∧
    (remove_asset store denv asset_id caller).1 =
      .error ⟨403, "Authorization failed: insufficient rights to access this asset"⟩ ∧
    (retrieve_single_asset store asset_id owner).1 = .ok r ∧
    (modify_asset_metadata store asset_id md owner now).1 =
      .ok (updateAsset r ⟨now, md.description, md.tags⟩) ∧
    (remove_asset store denv asset_id owner).1 = .ok () := by
  have hgeto : getAsset store asset_id owner = some r := hget
  have hne2 : r.userId ≠ caller := by
    rw [howner]; exact fun h => hne h.symm
  have hguardC : retrieve_and_confirm_asset_ownership (getAsset store) asset_id caller =
      .error ⟨403, "Authorization failed: insufficient rights to access this asset"⟩ := by
    simp only [retrieve_and_confirm_asset_ownership, hget]
    rw [if_pos hne2]
  have hguardO : retrieve_and_confirm_asset_ownership (getAsset store) asset_id owner =
      .ok r := by
    simp only [retrieve_and_confirm_asset_ownership, hgeto]
    rw [if_neg (fun h => h howner)]
  refine ⟨?_, ?_, ?_, ?_, ?_, ?_⟩
  · simp only [retrieve_single_asset, hguardC]
  · simp only [modify_asset_metadata, hguardC]
  · simp only [remove_asset, hguardC]
  · simp only [retrieve_single_asset, hguardO]
  · simp only [modify_asset_metadata, hguardO]
  · simp only [remove_asset, hguardO, hdel]
    rcases parse_preview_storage_identifier r with _ | pk <;> simp

/-- C1 witness: bob's read, update and delete of alice's asset are Forbidden;
alice's identical requests succeed. -/
theorem strict_ownership_forbidden_for_non_owner_and_owner_succeeds_witness :
    (retrieve_single_asset sampleStore "m1" "bob").1 =
      .error ⟨403, "Authorization failed: insufficient rights to access this asset"⟩ ∧
    (modify_asset_metadata sampleStore "m1" ⟨some "new", none⟩ "bob" 20).1 =
      .error ⟨403, "Authorization failed: insufficient rights to access this asset"⟩ ∧
    (remove_asset sampleStore sampleDeleteEnv "m1" "bob").1 =
      .error ⟨403, "Authorization failed: insufficient rights to access this asset"⟩ ∧
    (retrieve_single_asset sampleStore "m1" "alice").1 = .ok sampleRecord ∧
    (modify_asset_metadata sampleStore "m1" ⟨some "new", none⟩ "alice" 20).1 =
      .ok (updateAsset sampleRecord ⟨20, some "new", none⟩) ∧
    (remove_asset sampleStore sampleDeleteEnv "m1" "alice").1 = .ok () :=
  strict_ownership_forbidden_for_non_owner_and_owner_succeeds
    sampleStore sampleDeleteEnv "m1" "alice" "bob" sampleRecord
    ⟨some "new", none⟩ 20 rfl rfl (by decide) rfl

/-- When the primary blob write fails, the inner upload body raises and its
effect trace holds no metadata creation. -/
lemma upload_inner_no_metacreate_on_primary_fail
    (env : UploadEnv) (file : UploadRequest) (acct msg : String)
    (hfail : env.upload_primary = .error msg) :
    failed (upload_new_asset_inner env file acct).1 = true ∧
    ((upload_new_asset_inner env file acct).2.all fun eff => !eff.isMetaCreate) = true := by
  unfold upload_new_asset_inner
  rcases h1 : determine_file_category env.allowed_image_types env.allowed_video_types
      file.content_type with e | t
  · simp [failed]
  · rcases h2 : verify_file_constraints env.max_file_size_bytes file.size with e | n
    · simp [failed]
    · rcases h3 : process_labels env.json_loads file.tags with e | l
      · simp [failed]
      · simp [hfail, failed, Effect.isMetaCreate]

/-- C2: The metadata record is persisted only after the primary storage write
has succeeded: if the primary storage write fails, the create operation fails
and its effect trace holds no metadata creation, so no asset record is
persisted without a backing primary blob. -/
theorem create_persists_no_metadata_when_primary_write_fails
    (env : UploadEnv) (file : UploadRequest) (acct msg : String)
    (hfail : env.upload_primary = .error msg) :
    failed (upload_new_asset env file acct).1 = true ∧
    ((upload_new_asset env file acct).2.all fun eff => !eff.isMetaCreate) = true := by
  have h := upload_inner_no_metacreate_on_primary_fail env file acct msg hfail
  unfold upload_new_asset
  rcases hi : upload_new_asset_inner env file acct with ⟨res, eff⟩
  rw [hi] at h
  rcases res with e | rec
  · rcases e with e | m | m <;> exact ⟨rfl, h.2⟩
  · simp [failed] at h

/-- C2 witness: with the primary blob write failing, the concrete upload
fails and creates no metadata record. -/
theorem create_persists_no_metadata_when_primary_write_fails_witness :
    failed (upload_new_asset sampleUploadEnvPrimaryFail sampleUploadReq "alice").1 = true ∧
    ((upload_new_asset sampleUploadEnvPrimaryFail sampleUploadReq "alice").2.all
      fun eff => !eff.isMetaCreate) = true :=
  create_persists_no_metadata_when_primary_write_fails
    sampleUploadEnvPrimaryFail sampleUploadReq "alice" "storage unavailable" rfl

/-- C3: For a delete of an owned asset, a primary-blob deletion failure is
surfaced as an operation failure with the metadata record left in place,
while a preview-blob deletion failure (for instance a blob already removed
out of band) is swallowed: the delete still attempts the preview deletion,
removes the metadata record and succeeds. -/
theorem delete_surfaces_primary_failure_and_swallows_preview_failure
    (store : List AssetRecord) (envP envS : DeleteEnv)
    (asset_id owner m1 m2 pk : String) (r : AssetRecord)
    (hget : getAsset store asset_id owner = some r) (howner : r.userId = owner)
    (hpk : parse_preview_storage_identifier r = some pk)
    (hP : envP.delete_primary = .error m1)
    (hS1 : envS.delete_primary = .ok ())
    (_hS2 : envS.delete_preview = .error m2) :
    (remove_asset store envP asset_id owner).1 =
      .error ⟨500, "Failed to delete asset"⟩ ∧
    ((remove_asset store envP asset_id owner).2.all fun eff => !eff.isMetaDelete) = true ∧
    (remove_asset store envS asset_id owner).1 = .ok () ∧
    Effect.previewDelete pk ∈ (remove_asset store envS asset_id owner).2 ∧
    Effect.metaDelete asset_id owner ∈ (remove_asset store envS asset_id owner).2 := by
  have hguard : retrieve_and_confirm_asset_ownership (getAsset store) asset_id owner =
      .ok r := by
    simp only [retrieve_and_confirm_asset_ownership, hget]
    rw [if_neg (fun h => h howner)]
  refine ⟨?_, ?_, ?_, ?_, ?_⟩ <;>
    simp [remove_asset, hguard, hP, hS1, hpk, Effect.isMetaDelete]

/-- C3 witness: deleting alice's concrete asset fails without removing
metadata when the primary blob deletion fails, and succeeds while removing
metadata when only the preview blob deletion fails. -/
theorem delete_surfaces_primary_failure_and_swallows_preview_failure_witness :
    (remove_asset sampleStore sampleDeleteEnvPrimaryFail "m1" "alice").1 =
      .error ⟨500, "Failed to delete asset"⟩ ∧
    ((remove_asset sampleStore sampleDeleteEnvPrimaryFail "m1" "alice").2.all
      fun eff => !eff.isMetaDelete) = true ∧
    (remove_asset sampleStore sampleDeleteEnvPreviewFail "m1" "alice").1 = .ok () ∧
    Effect.previewDelete "users/alice/thumb_cat.png" ∈
      (remove_asset sampleStore sampleDeleteEnvPreviewFail "m1" "alice").2 ∧
    Effect.metaDelete "m1" "alice" ∈
      (remove_asset sampleStore sampleDeleteEnvPreviewFail "m1" "alice").2 :=
  delete_surfaces_primary_failure_and_swallows_preview_failure
    sampleStore sampleDeleteEnvPrimaryFail sampleDeleteEnvPreviewFail
    "m1" "alice" "primary delete failed" "preview blob absent"
    "users/alice/thumb_cat.png" sampleRecord rfl rfl (by decide) rfl rfl rfl

/-- C4: Content-type classification and size measurement run before any
storage write: a content type in neither allow-list fails the create with a
400 validation error and an empty effect trace, and an oversized stream
fails it with 413 and an empty effect trace. -/
theorem validation_runs_before_any_storage_write
    (env : UploadEnv) (f1 f2 : UploadRequest) (acct : String)
    (h1i : toLowerStr f1.content_type ∉ env.allowed_image_types)
    (h1v : toLowerStr f1.content_type ∉ env.allowed_video_types)
    (h2 : toLowerStr f2.content_type ∈ env.allowed_image_types ∨
          toLowerStr f2.content_type ∈ env.allowed_video_types)
    (h2s : f2.size > env.max_file_size_bytes) :
    upload_new_asset env f1 acct =
      (.error ⟨400, "Content type is not permitted"⟩, []) ∧
    upload_new_asset env f2 acct =
      (.error ⟨413, "File size surpasses maximum limit"⟩, []) := by
  constructor
  · have hcat : determine_file_category env.allowed_image_types env.allowed_video_types
        f1.content_type = .error ⟨400, "Content type is not permitted"⟩ := by
      simp only [determine_file_category]
      rw [if_neg h1i, if_neg h1v]
    simp [upload_new_asset, upload_new_asset_inner, hcat]
  · have hsize : verify_file_constraints env.max_file_size_bytes f2.size =
        .error ⟨413, "File size surpasses maximum limit"⟩ := by
      simp only [verify_file_constraints]
      rw [if_pos h2s]
    have hcat : ∃ t, determine_file_category env.allowed_image_types
        env.allowed_video_types f2.content_type = .ok t := by
      simp only [determine_file_category]
      by_cases hi : toLowerStr f2.content_type ∈ env.allowed_image_types
      · exact ⟨"image", by rw [if_pos hi]⟩
      · rcases h2 with h2 | h2
        · exact absurd h2 hi
        · exact ⟨"video", by rw [if_neg hi, if_pos h2]⟩
    rcases hcat with ⟨t, hcat⟩
    simp [upload_new_asset, upload_new_asset_inner, hcat, hsize]

/-- C4 witness: a text/plain upload yields 400 with no storage write, and a
600-byte upload against a 500-byte limit yields 413 with no storage write. -/
theorem validation_runs_before_any_storage_write_witness :
    upload_new_asset sampleUploadEnv
        { sampleUploadReq with content_type := "text/plain" } "alice" =
      (.error ⟨400, "Content type is not permitted"⟩, []) ∧
    upload_new_asset sampleUploadEnv { sampleUploadReq with size := 600 } "alice" =
      (.error ⟨413, "File size surpasses maximum limit"⟩, []) :=
  validation_runs_before_any_storage_write sampleUploadEnv
    { sampleUploadReq with content_type := "text/plain" }
    { sampleUploadReq with size := 600 } "alice"
    (by decide) (by decide) (Or.inl (by decide)) (by decide)

/-- C5 (code bug): a tags string that decodes as JSON to a non-array raises a
plain ValueError whose message asks for an array, but the inner
`except json.JSONDecodeError` clause does not catch ValueError, so the create
fails with a generic 500 instead of the documented 400 label-format
validation error; a tags string that is not valid JSON does get the 400. -/
theorem upload_nonarray_label_json_yields_500_not_400 :
    upload_new_asset sampleUploadEnv { sampleUploadReq with tags := some "5" } "alice" =
      (.error ⟨500, "Upload operation failed: Labels must be provided as an array"⟩, []) ∧
    upload_new_asset sampleUploadEnv { sampleUploadReq with tags := some "no" } "alice" =
      (.error ⟨400, "Label data format invalid. Expected JSON array."⟩, []) :=
  ⟨rfl, rfl⟩

/-- C6 counterexample: on a record whose primary storage key does not contain
the last path segment of the original filename, the derivation does not
return null as claimed; Python str.replace leaves the key unchanged, so the
primary storage key itself is returned. -/
theorem preview_identifier_not_null_when_pattern_not_found :
    strContains c6Record.fileName (lastPathSegment "cat.png") = false ∧
    c6Record.originalFileName = some "cat.png" ∧
    c6Record.thumbnailUrl ≠ none ∧
    parse_preview_storage_identifier c6Record = some "uploads/dog.jpg" ∧
    parse_preview_storage_identifier c6Record ≠ none := by
  decide

/-- A fuel-driven replacement of a pattern that occurs nowhere leaves the
list unchanged. -/
lemma listReplaceF_of_not_contains (pat rep : List Char) :
    ∀ s : List Char, listContainsPat pat s = false →
      ∀ fuel : Nat, listReplaceF pat rep fuel s = s := by
  intro s
  induction s with
  | nil =>
    intro h fuel
    cases fuel <;> rfl
  | cons c cs ih =>
    intro h fuel
    have h2 : listStartsWith (c :: cs) pat = false ∧ listContainsPat pat cs = false := by
      simpa [listContainsPat] using h
    cases fuel with
    | zero => rfl
    | succ n =>
      simp only [listReplaceF, h2.1, Bool.false_eq_true, if_false]
      rw [ih h2.2 n]

/-- The empty pattern occurs in every string. -/
lemma listContainsPat_nil (s : List Char) : listContainsPat [] s = true := by
  cases s <;> simp [listContainsPat, listStartsWith]

/-- Replacing a pattern that does not occur in a string leaves the string
unchanged; a pattern that does not occur is in particular non-empty. -/
lemma strReplace_of_not_contains (s pat rep : String)
    (h : strContains s pat = false) : strReplace s pat rep = s := by
  unfold strReplace
  by_cases hp : pat.data.isEmpty
  · exfalso
    have hnil : pat.data = [] := by
      rcases hd : pat.data with _ | ⟨c, cs⟩
      · rfl
      · rw [hd] at hp
        simp at hp
    unfold strContains at h
    rw [hnil, listContainsPat_nil] at h
    simp at h
  · rw [if_neg hp]
    rw [listReplaceF_of_not_contains pat.data rep.data s.data h s.data.length]

/-- C6 (amended): with a truthy preview URL and a present original filename,
the derivation substitutes the last path segment of the original filename in
the primary storage key by the same segment prefixed with `thumb_`; when the
segment does not occur in the key, the key is returned unchanged — not null.
The result is null exactly when the stored preview URL is falsy or the
original filename is absent; the function is total, never raising. -/
theorem preview_identifier_derivation_characterization
    (d : AssetRecord) (u orig : String)
    (h1 : d.thumbnailUrl = some u) (h2 : u ≠ "") (h3 : d.originalFileName = some orig) :
    parse_preview_storage_identifier d =
      some (strReplace d.fileName (lastPathSegment orig)
        ("thumb_" ++ lastPathSegment orig)) ∧
    (strContains d.fileName (lastPathSegment orig) = false →
      parse_preview_storage_identifier d = some d.fileName) ∧
    (∀ d2 : AssetRecord, parse_preview_storage_identifier d2 = none ↔
      (d2.thumbnailUrl = none ∨ d2.thumbnailUrl = some "" ∨
        d2.originalFileName = none)) := by
  have hc : ¬(d.thumbnailUrl = none ∨ d.thumbnailUrl = some "") := by
    rw [h1]
    simp [h2]
  have hmain : parse_preview_storage_identifier d =
      some (strReplace d.fileName (lastPathSegment orig)
        ("thumb_" ++ lastPathSegment orig)) := by
    unfold parse_preview_storage_identifier
    rw [if_neg hc, h3]
  refine ⟨hmain, ?_, ?_⟩
  · intro hnc
    rw [hmain, strReplace_of_not_contains d.fileName (lastPathSegment orig) _ hnc]
  · intro d2
    by_cases hc2 : d2.thumbnailUrl = none ∨ d2.thumbnailUrl = some ""
    · simp only [parse_preview_storage_identifier, if_pos hc2]
      tauto
    · rcases ho : d2.originalFileName with _ | o
      · simp only [parse_preview_storage_identifier, if_neg hc2, ho]
        tauto
      · simp only [parse_preview_storage_identifier, if_neg hc2, ho]
        push_neg at hc2
        simp [hc2.1, hc2.2]

/-- C6 witness: on the record whose preview URL is present and whose original
filename does not occur in the primary key, the derivation returns the
primary key unchanged. -/
theorem preview_identifier_derivation_characterization_witness :
    parse_preview_storage_identifier c6Record = some "uploads/dog.jpg" := by
  have h := preview_identifier_derivation_characterization c6Record
    "http://blob/thumb_cat.png" "cat.png" rfl (by decide) rfl
  rw [h.1]
  rfl

/-- C7: For an image create where the preview pipeline fails or the preview
blob write fails, the asset record is still created — returned, and persisted
in the trace — with a null preview key; and the preview deriver itself
returns none on any failure rather than raising. -/
theorem image_create_survives_preview_failure
    (env : UploadEnv) (file : UploadRequest) (acct key url : String)
    (ll : Option (List String))
    (himg : toLowerStr file.content_type ∈ env.allowed_image_types)
    (hsize : ¬file.size > env.max_file_size_bytes)
    (htags : process_labels env.json_loads file.tags = .ok ll)
    (hstore : env.upload_primary = .ok (key, url))
    (hpf : create_preview_image env.preview_pipeline = none ∨
           failed env.upload_preview = true) :
    (upload_new_asset env file acct).1 =
      .ok (build_asset_record env file acct key url "image" file.size none ll) ∧
    Effect.metaCreate (build_asset_record env file acct key url "image" file.size none ll) ∈
      (upload_new_asset env file acct).2 ∧
    ∀ msg : String, create_preview_image (Except.error msg) = none := by
  have hcat : determine_file_category env.allowed_image_types env.allowed_video_types
      file.content_type = .ok "image" := by
    simp only [determine_file_category]
    rw [if_pos himg]
  have hver : verify_file_constraints env.max_file_size_bytes file.size = .ok file.size := by
    simp only [verify_file_constraints]
    rw [if_neg hsize]
  have hpre : (create_preview_image env.preview_pipeline = none) ∨
      (∃ pb, create_preview_image env.preview_pipeline = some pb ∧
        ∃ m, env.upload_preview = .error m) := by
    rcases hcp : create_preview_image env.preview_pipeline with _ | pb
    · exact Or.inl rfl
    · rcases hpf with hpf | hpf
      · rw [hcp] at hpf
        exact absurd hpf (by simp)
      · rcases hup : env.upload_preview with m | p
        · exact Or.inr ⟨pb, rfl, m, rfl⟩
        · rw [hup] at hpf
          simp [failed] at hpf
  refine ⟨?_, ?_, fun msg => rfl⟩ <;>
  · unfold upload_new_asset upload_new_asset_inner
    rcases hpre with hcp | ⟨pb, hcp, m, hup⟩
    · simp [hcat, hver, htags, hstore, hcp]
    · simp [hcat, hver, htags, hstore, hcp, hup]

/-- C7 witness: the concrete image upload with a failing PIL pipeline still
succeeds and returns the record with a null preview key. -/
theorem image_create_survives_preview_failure_witness :
    (upload_new_asset sampleUploadEnvPreviewFail sampleUploadReq "alice").1 =
      .ok { sampleCreatedRecord with thumbnailUrl := none } :=
  (image_create_survives_preview_failure sampleUploadEnvPreviewFail sampleUploadReq
    "alice" "users/alice/cat.png" "http://blob/cat.png" (some [])
    (by decide) (by decide) rfl rfl (Or.inl rfl)).1

/-- C8: A created asset record carries a non-null preview key only when its
media category is image, the preview derivation produced bytes and the
preview blob write succeeded; a video record always has a null preview
key. -/
theorem preview_key_only_for_successful_image_previews
    (env : UploadEnv) (file : UploadRequest) (acct : String) (record : AssetRecord)
    (hok : (upload_new_asset env file acct).1 = .ok record) :
    (record.thumbnailUrl ≠ none →
      record.mediaType = "image" ∧
      create_preview_image env.preview_pipeline ≠ none ∧
      succeeded env.upload_preview = true) ∧
    (record.mediaType = "video" → record.thumbnailUrl = none) := by
  unfold upload_new_asset upload_new_asset_inner at hok
  rcases h1 : determine_file_category env.allowed_image_types env.allowed_video_types
      file.content_type with e | t <;> simp only [h1] at hok
  · simp at hok
  rcases h2 : verify_file_constraints env.max_file_size_bytes file.size with e | n <;>
    simp only [h2] at hok
  · simp at hok
  rcases h3 : process_labels env.json_loads file.tags with e | l <;>
    simp only [h3] at hok
  · rcases e with e | m | m <;> simp at hok
  rcases h4 : env.upload_primary with m | kv <;> simp only [h4] at hok
  · simp at hok
  rcases kv with ⟨key, url⟩
  by_cases ht : t = "image"
  · subst ht
    rcases hcp : create_preview_image env.preview_pipeline with _ | pb <;>
      simp only [hcp] at hok
    · simp at hok
      subst hok
      constructor
      · intro hth
        simp [build_asset_record] at hth
      · intro hv
        simp [build_asset_record]
    · rcases hup : env.upload_preview with m | p <;> simp only [hup] at hok <;>
        simp at hok <;> subst hok
      · constructor
        · intro hth
          simp [build_asset_record] at hth
        · intro hv
          simp [build_asset_record]
      · constructor
        · intro hth
          exact ⟨rfl, by simp, rfl⟩
        · intro hv
          simp [build_asset_record] at hv
  · simp only [if_neg ht] at hok
    simp at hok
    subst hok
    constructor
    · intro hth
      simp [build_asset_record] at hth
    · intro hv
      simp [build_asset_record]

/-- C8 witness: the concrete successful image create has a non-null preview
key, and indeed its category is image, the derivation succeeded and the
preview write succeeded. -/
theorem preview_key_only_for_successful_image_previews_witness :
    sampleCreatedRecord.mediaType = "image" ∧
    create_preview_image sampleUploadEnv.preview_pipeline ≠ none ∧
    succeeded sampleUploadEnv.upload_preview = true :=
  (preview_key_only_for_successful_image_previews sampleUploadEnv sampleUploadReq
    "alice" sampleCreatedRecord rfl).1 (by decide)

/-- C9 counterexample: a description field explicitly supplied as JSON null
deserializes to None exactly like an omitted field, so the update leaves the
stored description untouched instead of writing null as claimed. -/
theorem update_null_supplied_field_left_untouched :
    (modify_asset_metadata_from_payload sampleStore "m1"
        ⟨Field.null, Field.absent⟩ "alice" 20).1 =
      .ok { sampleRecord with updatedAt := 20 } ∧
    ({ sampleRecord with updatedAt := 20 } : AssetRecord).description = some "a cat" ∧
    ({ sampleRecord with updatedAt := 20 } : AssetRecord).description ≠ none :=
  ⟨rfl, rfl, by decide⟩

/-- C9 (amended): an update of an owned asset applies exactly the fields
supplied with a non-null value: omitted fields and fields supplied as null
are left untouched (the two are indistinguishable after deserialization, so
a null-supplied field is not written as null), the updated timestamp is set
to the update time, and every other record field is unchanged. -/
theorem update_applies_exactly_supplied_nonnull_fields
    (store : List AssetRecord) (asset_id owner : String) (r u : AssetRecord)
    (body : MediaUpdatePayload) (now : Nat)
    (hget : getAsset store asset_id owner = some r) (howner : r.userId = owner)
    (hu : (modify_asset_metadata_from_payload store asset_id body owner now).1 = .ok u) :
    u.id = r.id ∧ u.userId = r.userId ∧ u.fileName = r.fileName ∧
    u.originalFileName = r.originalFileName ∧ u.mediaType = r.mediaType ∧
    u.fileSize = r.fileSize ∧ u.mimeType = r.mimeType ∧ u.blobUrl = r.blobUrl ∧
    u.thumbnailUrl = r.thumbnailUrl ∧ u.uploadedAt = r.uploadedAt ∧
    u.updatedAt = now ∧
    u.description = (match body.description with
      | Field.given d => some d
      | _ => r.description) ∧
    u.tags = (match body.tags with
      | Field.given tg => some tg
      | _ => r.tags) := by
  have hguard : retrieve_and_confirm_asset_ownership (getAsset store) asset_id owner =
      .ok r := by
    simp only [retrieve_and_confirm_asset_ownership, hget]
    rw [if_neg (fun h => h howner)]
  simp only [modify_asset_metadata_from_payload, modify_asset_metadata, hguard] at hu
  simp at hu
  subst hu
  rcases body with ⟨bd, bt⟩
  rcases bd <;> rcases bt <;>
    exact ⟨rfl, rfl, rfl, rfl, rfl, rfl, rfl, rfl, rfl, rfl, rfl, rfl, rfl⟩

/-- C9 witness: updating only the description of the concrete record applies
it, bumps the timestamp, and leaves the tags and every other field
unchanged. -/
theorem update_applies_exactly_supplied_nonnull_fields_witness :
    ({ sampleRecord with description := some "new", updatedAt := 20 } :
        AssetRecord).id = sampleRecord.id ∧
    ({ sampleRecord with description := some "new", updatedAt := 20 } :
        AssetRecord).userId = sampleRecord.userId ∧
    ({ sampleRecord with description := some "new", updatedAt := 20 } :
        AssetRecord).fileName = sampleRecord.fileName ∧
    ({ sampleRecord with description := some "new", updatedAt := 20 } :
        AssetRecord).originalFileName = sampleRecord.originalFileName ∧
    ({ sampleRecord with description := some "new", updatedAt := 20 } :
        AssetRecord).mediaType = sampleRecord.mediaType ∧
    ({ sampleRecord with description := some "new", updatedAt := 20 } :
        AssetRecord).fileSize = sampleRecord.fileSize ∧
    ({ sampleRecord with description := some "new", updatedAt := 20 } :
        AssetRecord).mimeType = sampleRecord.mimeType ∧
    ({ sampleRecord with description := some "new", updatedAt := 20 } :
        AssetRecord).blobUrl = sampleRecord.blobUrl ∧
    ({ sampleRecord with description := some "new", updatedAt := 20 } :
        AssetRecord).thumbnailUrl = sampleRecord.thumbnailUrl ∧
    ({ sampleRecord with description := some "new", updatedAt := 20 } :
        AssetRecord).uploadedAt = sampleRecord.uploadedAt ∧
    ({ sampleRecord with description := some "new", updatedAt := 20 } :
        AssetRecord).updatedAt = 20 ∧
    ({ sampleRecord with description := some "new", updatedAt := 20 } :
        AssetRecord).description = some "new" ∧
    ({ sampleRecord with description := some "new", updatedAt := 20 } :
        AssetRecord).tags = sampleRecord.tags :=
  update_applies_exactly_supplied_nonnull_fields sampleStore "m1" "alice"
    sampleRecord { sampleRecord with description := some "new", updatedAt := 20 }
    ⟨Field.given "new", Field.absent⟩ 20 rfl rfl rfl

/-- The upload route hands back exactly the effect trace of its inner body;
the outer exception handlers change only the result. -/
lemma upload_effects_eq_inner (env : UploadEnv) (file : UploadRequest) (acct : String) :
    (upload_new_asset env file acct).2 = (upload_new_asset_inner env file acct).2 := by
  unfold upload_new_asset
  rcases hi : upload_new_asset_inner env file acct with ⟨res, eff⟩
  rcases res with e | rec
  · rcases e with e | m | m <;> rfl
  · rfl

/-- Every notification in the inner upload body's trace carries the constant
payload, and there is at most one. -/
lemma upload_inner_notify_const (env : UploadEnv) (file : UploadRequest) (acct : String) :
    notifyPayloads (upload_new_asset_inner env file acct).2 = [] ∨
    notifyPayloads (upload_new_asset_inner env file acct).2 = [notify_payload] := by
  unfold upload_new_asset_inner
  rcases h1 : determine_file_category env.allowed_image_types env.allowed_video_types
      file.content_type with e | t
  · exact Or.inl rfl
  rcases h2 : verify_file_constraints env.max_file_size_bytes file.size with e | n
  · exact Or.inl rfl
  rcases h3 : process_labels env.json_loads file.tags with e | l
  · exact Or.inl rfl
  rcases h4 : env.upload_primary with m | kv
  · exact Or.inl rfl
  rcases kv with ⟨key, url⟩
  right
  by_cases ht : t = "image"
  · subst ht
    rcases hcp : create_preview_image env.preview_pipeline with _ | pb
    · simp [notifyPayloads]
    · rcases hup : env.upload_preview with m | p <;> simp [notifyPayloads]
  · simp only [if_neg ht]
    simp [notifyPayloads]

/-- C10: The outbound notification is dispatched with the fixed constant
payload — empty type, value and filename — independent of all request data,
caller identity and collaborator outcomes, across every media route; and the
notification function itself never raises: whatever the post outcome, it
returns normally, sending either nothing (when unconfigured) or exactly the
constant payload. -/
theorem notifications_are_constant_and_never_fail :
    (∀ (url : Option String) (post : NotifyPayload → Except String Unit),
       notify_logic_app url post = none ∨
       notify_logic_app url post = some notify_payload) ∧
    (∀ (url : Option String) (post1 post2 : NotifyPayload → Except String Unit),
       notify_logic_app url post1 = notify_logic_app url post2) ∧
    (∀ (env : UploadEnv) (file : UploadRequest) (acct : String),
       notifyPayloads (upload_new_asset env file acct).2 = [] ∨
       notifyPayloads (upload_new_asset env file acct).2 = [notify_payload]) ∧
    (∀ (sm : String → String → Nat → Nat → List AssetRecord × Nat)
       (q : String) (page ps : Nat) (acct : String),
       notifyPayloads (find_assets sm q page ps acct).2 = [notify_payload]) ∧
    (∀ (gm : String → Nat → Nat → Option String → List AssetRecord × Nat)
       (page ps : Nat) (mt : Option String) (acct : String),
       notifyPayloads (retrieve_asset_collection gm page ps mt acct).2 =
         [notify_payload]) ∧
    (∀ (store : List AssetRecord) (i acct : String),
       notifyPayloads (retrieve_single_asset store i acct).2 = [] ∨
       notifyPayloads (retrieve_single_asset store i acct).2 = [notify_payload]) ∧
    (∀ (store : List AssetRecord) (i : String) (md : MediaUpdate)
       (acct : String) (now : Nat),
       notifyPayloads (modify_asset_metadata store i md acct now).2 = [] ∨
       notifyPayloads (modify_asset_metadata store i md acct now).2 =
         [notify_payload]) ∧
    (∀ (store : List AssetRecord) (denv : DeleteEnv) (i acct : String),
       notifyPayloads (remove_asset store denv i acct).2 = [] ∨
       notifyPayloads (remove_asset store denv i acct).2 = [notify_payload]) := by
  refine ⟨?_, ?_, ?_, ?_, ?_, ?_, ?_, ?_⟩
  · intro url post
    rcases url with _ | u
    · exact Or.inl rfl
    · right
      unfold notify_logic_app
      rcases post notify_payload with m | a <;> rfl
  · intro url post1 post2
    rcases url with _ | u
    · rfl
    · unfold notify_logic_app
      rcases post1 notify_payload with m | a <;> rcases post2 notify_payload with m2 | a2 <;>
        rfl
  · intro env file acct
    rw [upload_effects_eq_inner]
    exact upload_inner_notify_const env file acct
  · intro sm q page ps acct
    rfl
  · intro gm page ps mt acct
    rfl
  · intro store i acct
    unfold retrieve_single_asset
    rcases hg : retrieve_and_confirm_asset_ownership (getAsset store) i acct with e | r
    · exact Or.inl rfl
    · exact Or.inr rfl
  · intro store i md acct now
    unfold modify_asset_metadata
    rcases hg : retrieve_and_confirm_asset_ownership (getAsset store) i acct with e | r
    · exact Or.inl rfl
    · exact Or.inr rfl
  · intro store denv i acct
    unfold remove_asset
    rcases hg : retrieve_and_confirm_asset_ownership (getAsset store) i acct with e | r
    · exact Or.inl rfl
    · rcases hd : denv.delete_primary with m | a
      · exact Or.inl rfl
      · right
        rcases hp : parse_preview_storage_identifier r with _ | pk <;>
          simp [notifyPayloads, hp]

end Freya
